import Mathlib

/-!
Shallow embedding of the lmenaolivares/lego repository
(src/duplo-train-controller/duplo_train_controller.py and src/duplo_2.0.py).

Byte buffers are `List Nat` (each element a byte value).  Python's fallible
indexing `data[i]` is modelled by `pyGet`, which returns an index error
exactly when `i` is out of range, so out-of-bounds reads are observable.
-/

namespace DuploTrain

/-- A Python runtime exception raised while handling a frame. -/
inductive PyErr where
  | indexError
deriving DecidableEq

/-- `data[i]` on a Python bytes object: the byte when `i` is in range,
an `IndexError` otherwise. -/
def pyGet (l : List Nat) (i : Nat) : Except PyErr Nat :=
  match l.get? i with
  | some v => Except.ok v
  | none => Except.error PyErr.indexError

/-- `MOTOR_PORT = 0x32` from duplo_train_controller.py. -/
def MOTOR_PORT : Nat := 0x32

/-- The typed outcome of `notification_handler`'s parse of one inbound frame:
which branch of the dispatch ran and which fields it extracted.
`truncated` is the `len(data) >= 3` guard failing (the frame is too short to
carry a message type); `ignored` is a recognised message type whose inner
length guard failed; `unrecognized` is a message type matching no branch. -/
inductive HandlerResult where
  | truncated
  | ignored
  | attachedIo (port event : Nat) (deviceType : Option Nat)
  | genericError (cmdType errorCode : Nat)
  | portOutputFeedback (port feedback : Nat)
  | portInfo (port infoType : Nat) (caps : Option (Nat × Nat × Nat × Nat))
  | portModeName (port mode : Nat) (name : List Nat)
  | portModeFormat (port mode numValues dataType totalFigures decimals : Nat)
  | portModeOther (port mode infoType : Nat)
  | portValueSingle (port : Nat) (value : List Nat)
  | unrecognized (raw : List Nat)
deriving DecidableEq

/-- The mutable fields of `DuploTrainController` that `notification_handler`
reads or writes (`self.motor_port`, `self.speaker_port`, `self.led_port`,
`self.last_notification`). -/
structure CtrlState where
  motor_port : Option Nat
  speaker_port : Option Nat
  led_port : Option Nat
  last_notification : Option (List Nat)
deriving DecidableEq

/-- The controller state right after `__init__` (all fields `None`). -/
def initState : CtrlState :=
  { motor_port := none, speaker_port := none, led_port := none,
    last_notification := none }

/-- `DuploTrainController.notification_handler`, lines 66-146: stores the raw
frame in `last_notification`, then, when the frame has at least 3 bytes,
dispatches on `data[2]`.  Each byte read uses `pyGet`, so the embedding
records exactly where the Python code would raise `IndexError` (the 0x04
branch reads `data[3]` and `data[4]` with no length guard, and reads
`data[5]` whenever `event == 0x01`). -/
def notification_handler (s0 : CtrlState) (data : List Nat) :
    Except PyErr (HandlerResult × CtrlState) := do
  let s : CtrlState := { s0 with last_notification := some data }
  if 3 ≤ data.length then
    let msg_type ← pyGet data 2
    if msg_type = 0x04 then
      let port ← pyGet data 3
      let event ← pyGet data 4
      if event = 0x01 then
        let device_type ←
          if 6 < data.length then do
            let lo ← pyGet data 5
            let hi ← pyGet data 6
            pure (lo ||| (hi <<< 8))
          else
            pyGet data 5
        let s1 : CtrlState :=
          if device_type = 0x0029 then { s with motor_port := some port }
          else if device_type = 0x005B then { s with led_port := some port }
          else s
        pure (HandlerResult.attachedIo port event (some device_type), s1)
      else
        pure (HandlerResult.attachedIo port event none, s)
    else if msg_type = 0x05 then
      if 6 ≤ data.length then
        let cmd_type ← pyGet data 3
        let error_code ← pyGet data 4
        pure (HandlerResult.genericError cmd_type error_code, s)
      else pure (HandlerResult.ignored, s)
    else if msg_type = 0x82 then
      if 5 ≤ data.length then
        let port ← pyGet data 3
        let feedback ← pyGet data 4
        pure (HandlerResult.portOutputFeedback port feedback, s)
      else pure (HandlerResult.ignored, s)
    else if msg_type = 0x43 then
      if 6 ≤ data.length then
        let port ← pyGet data 3
        let info_type ← pyGet data 4
        if info_type = 0x01 ∧ 11 ≤ data.length then
          let capabilities ← pyGet data 5
          let total_modes ← pyGet data 6
          let in_lo ← pyGet data 7
          let in_hi ← pyGet data 8
          let out_lo ← pyGet data 9
          let out_hi ← pyGet data 10
          pure (HandlerResult.portInfo port info_type
            (some (capabilities, total_modes,
              in_lo ||| (in_hi <<< 8), out_lo ||| (out_hi <<< 8))), s)
        else
          pure (HandlerResult.portInfo port info_type none, s)
      else pure (HandlerResult.ignored, s)
    else if msg_type = 0x44 then
      if 6 ≤ data.length then
        let port ← pyGet data 3
        let mode ← pyGet data 4
        let info_type ← pyGet data 5
        if info_type = 0x00 then
          pure (HandlerResult.portModeName port mode (data.drop 6), s)
        else if info_type = 0x80 then
          if 11 ≤ data.length then
            let num_values ← pyGet data 6
            let data_type ← pyGet data 7
            let total_figures ← pyGet data 8
            let decimals ← pyGet data 9
            pure (HandlerResult.portModeFormat port mode
              num_values data_type total_figures decimals, s)
          else pure (HandlerResult.portModeOther port mode info_type, s)
        else pure (HandlerResult.portModeOther port mode info_type, s)
      else pure (HandlerResult.ignored, s)
    else if msg_type = 0x45 then
      if 5 ≤ data.length then
        let port ← pyGet data 3
        pure (HandlerResult.portValueSingle port (data.drop 4), s)
      else pure (HandlerResult.ignored, s)
    else
      pure (HandlerResult.unrecognized data, s)
  else
    pure (HandlerResult.truncated, s)

/-- The pure decode view of `notification_handler`: the parse outcome of a
raw frame (the state part does not influence parsing). -/
def decode (raw : List Nat) : Except PyErr HandlerResult :=
  (notification_handler initState raw).map Prod.fst

/-- The message types `notification_handler` dispatches on. -/
def knownMsgTypes : List Nat := [0x04, 0x05, 0x82, 0x43, 0x44, 0x45]

/-- The clamp in `set_motor_speed`: `speed = max(-100, min(100, speed))`. -/
def clampSpeed (speed : Int) : Int := max (-100) (min 100 speed)

/-- `DuploTrainController.set_motor_speed`, lines 261-276: clamp, two's
complement into a byte (`(256 + speed) & 0xFF` when negative, `speed & 0xFF`
otherwise), then build the 8-byte frame. -/
def set_motor_speed (speed : Int) : List Nat :=
  let s := clampSpeed speed
  let speed_byte : Nat :=
    if s < 0 then (256 + s).toNat &&& 0xFF else s.toNat &&& 0xFF
  [0x08, 0x00, 0x81, MOTOR_PORT, 0x01, 0x51, 0x00, speed_byte]

/-- Modelled from the spec: the spec's byte mapping for motor speed,
`byte = speed < 0 ? 256+speed : speed` applied to the clamp of the input to
`[-100, 100]`.  Used to compare the code's `& 0xFF` computation against the
spec's words. -/
def specMotorByte (speed : Int) : Nat :=
  let s := clampSpeed speed
  (if s < 0 then 256 + s else s).toNat

/-- The clamp in `play_sound`: `sound_id = max(1, min(10, sound_id))`. -/
def clampSound (sound_id : Int) : Int := max 1 (min 10 sound_id)

/-- `DuploTrainController.play_sound`, lines 343-354: clamp the sound id to
1..10 and build the 5-byte Hub-Action frame `[0x04, 0x00, 0x02, 0x01, id]`. -/
def play_sound (sound_id : Int) : List Nat :=
  [0x04, 0x00, 0x02, 0x01, (clampSound sound_id).toNat]

/-- The header-prepending step of `DuploTrainController.send_command`, lines
227-243: `message = bytearray([len(command) + 2, 0x00]) + command`.
`bytearray([n])` demands `n ≤ 255`, so longer payloads yield `none`
(a `ValueError` in Python). -/
def send_command_frame (command : List Nat) : Option (List Nat) :=
  if command.length + 2 ≤ 255 then
    some ((command.length + 2) :: 0x00 :: command)
  else none

/-- The outcome of `DuploTrainController.evaluate_response`: which of its
string-returning branches ran (the strings themselves carry no further
program state). -/
inductive EvalResult where
  | noResponse
  | errInvalidUse
  | errNotRecognized
  | errInvalidUseHubAction
  | errGeneric (cmdType errorCode : Nat)
  | response
  | successData
  | unknownResponse
deriving DecidableEq

/-- `DuploTrainController.evaluate_response`, lines 309-336: branches on the
hex string of `last_notification`.  Hex-string equality and prefix tests are
byte-list equality and prefix tests (each byte is exactly two hex digits). -/
def evaluate_response (last : Option (List Nat)) : Except PyErr EvalResult := do
  match last with
  | none => pure EvalResult.noResponse
  | some data =>
    if data = [0x05, 0x00, 0x05, 0x01, 0x06] then
      pure EvalResult.errInvalidUse
    else if data = [0x05, 0x00, 0x05, 0x01, 0x05] then
      pure EvalResult.errNotRecognized
    else if data = [0x05, 0x00, 0x05, 0x02, 0x06] then
      pure EvalResult.errInvalidUseHubAction
    else if data.take 3 = [0x05, 0x00, 0x05] then
      if 5 ≤ data.length then
        let cmd_type ← pyGet data 3
        let error_code ← pyGet data 4
        pure (EvalResult.errGeneric cmd_type error_code)
      else pure EvalResult.unknownResponse
    else if data.take 2 = [0x05, 0x00] then
      pure EvalResult.response
    else
      pure EvalResult.successData

end DuploTrain

namespace Duplo2

/-- The header-prepending step of `DuploTrainToddlerController.send_command`,
duplo_2.0.py lines 111-114: identical to the other controller's. -/
def send_command_frame (command : List Nat) : Option (List Nat) :=
  if command.length + 2 ≤ 255 then
    some ((command.length + 2) :: 0x00 :: command)
  else none

/-- The colors `cycle_color` skips: `skip_colors = [0, 11, 16]`. -/
def skip_colors : List Nat := [0, 11, 16]

/-- The `while True` search loop inside `cycle_color`, fuel-indexed:
`next_color = (next_color + 1) % (max + 1)`, clamp below by `min`, stop at
the first color not in the skip list.  `none` means the fuel ran out before
the loop exited. -/
def next_color_loop (maxColor minColor : Nat) (skip : List Nat) :
    Nat → Nat → Option Nat
  | 0, _ => none
  | fuel + 1, c =>
    let c1 := (c + 1) % (maxColor + 1)
    let c2 := if c1 < minColor then minColor else c1
    if c2 ∈ skip then next_color_loop maxColor minColor skip fuel c2
    else some c2

/-- `DuploTrainToddlerController.cycle_color` under the default configuration
(`color_range = {min: 0, max: 23}`), lines 154-172, run with fuel 24: the new
`current_color`, or `none` if the loop would still be running after 24
iterations. -/
def cycle_color (current_color : Nat) : Option Nat :=
  next_color_loop 23 0 skip_colors 24 current_color

/-- The fields of `DuploTrainToddlerController` that the reconnection logic
reads or writes: `self.running`, the transport's connectedness
(`self.client.is_connected`), and `self.reconnecting`. -/
structure SupState where
  running : Bool
  connected : Bool
  reconnecting : Bool
deriving DecidableEq

/-- Environment in which every scan/connect attempt fails (no device found,
or connect raises). -/
def scan_always_fails : Nat → Bool := fun _ => false

/-- Environment in which no pressed key maps to the QUIT action. -/
def no_quit_key : Nat → Bool := fun _ => false

/-- The `for attempt in range(max_attempts)` loop of
`DuploTrainToddlerController.handle_reconnection`, lines 258-284.
`outcome attempt` is true when that attempt's scan finds the train and the
connect succeeds.  Returns the resulting state and the number of scan
attempts the loop performed.  When every attempt fails the code prints the
failure, sets `self.running = False` and `self.reconnecting = False`. -/
def handle_reconnection_go (outcome : Nat → Bool) :
    Nat → Nat → SupState → SupState × Nat
  | _, 0, s =>
    ({ running := false, connected := s.connected, reconnecting := false }, 0)
  | attempt, r + 1, s =>
    if outcome attempt then
      ({ s with connected := true, reconnecting := false }, 1)
    else
      let p := handle_reconnection_go outcome (attempt + 1) r s
      (p.1, p.2 + 1)

/-- `DuploTrainToddlerController.handle_reconnection`: sets
`self.reconnecting = True`, then runs the bounded retry loop. -/
def handle_reconnection (maxAttempts : Nat) (outcome : Nat → Bool)
    (s : SupState) : SupState × Nat :=
  handle_reconnection_go outcome 0 maxAttempts { s with reconnecting := true }

/-- The number of scan attempts the `while self.running` loop of
`DuploTrainToddlerController.run_interactive` (lines 207-214) performs within
`fuel` iterations: when disconnected and not already reconnecting it calls
`handle_reconnection`; when connected it handles one key press (`quit i` true
means the key maps to QUIT, which breaks the loop). -/
def run_interactive_scans (maxAttempts : Nat) (outcome : Nat → Bool)
    (quit : Nat → Bool) : Nat → Nat → SupState → Nat
  | 0, _, _ => 0
  | fuel + 1, i, s =>
    if s.running then
      if s.connected then
        if quit i then 0
        else run_interactive_scans maxAttempts outcome quit fuel (i + 1) s
      else
        if s.reconnecting then
          run_interactive_scans maxAttempts outcome quit fuel (i + 1) s
        else
          let p := handle_reconnection maxAttempts outcome s
          p.2 + run_interactive_scans maxAttempts outcome quit fuel (i + 1) p.1
    else 0

end Duplo2

/-! ## Helper lemmas -/

/-- Masking with `0xFF` is the identity on bytes. -/
theorem nat_and_255_eq (x : Nat) (h : x < 256) : x &&& 255 = x := by
  exact Nat.and_pow_two_sub_one_eq_mod x 8 ▸ Nat.mod_eq_of_lt h

namespace Duplo2

/-- When every attempt fails, the retry loop of `handle_reconnection` runs all
its iterations, stops the controller and clears the reconnecting flag. -/
theorem handle_reconnection_go_all_fail (outcome : Nat → Bool)
    (h : ∀ j, outcome j = false) :
    ∀ (r a : Nat) (s : SupState),
      handle_reconnection_go outcome a r s =
        ({ running := false, connected := s.connected, reconnecting := false },
          r) := by
  intro r
  induction r with
  | zero => intro a s; rfl
  | succ n ih =>
    intro a s
    simp [handle_reconnection_go, h a, ih (a + 1) s]

/-- Once `self.running` is false the interactive loop performs no scans. -/
theorem run_interactive_scans_stopped (maxAttempts : Nat)
    (outcome quit : Nat → Bool) (fuel i : Nat) (s : SupState)
    (h : s.running = false) :
    run_interactive_scans maxAttempts outcome quit fuel i s = 0 := by
  cases fuel with
  | zero => rfl
  | succ n => simp [run_interactive_scans, h]

end Duplo2

/-! ## Claim theorems -/

namespace DuploTrain

/-- Claim C1: for every integer speed, `set_motor_speed` builds exactly the
8-byte frame `[0x08, 0x00, 0x81, MOTOR_PORT, 0x01, 0x51, 0x00, b]` where `b`
is the spec's two's-complement byte of the clamp of the speed to
`[-100, 100]`; in particular speed -1 gives byte 0xFF, 100 gives 0x64, and
150 / -150 give the same frames as 100 / -100. -/
theorem set_motor_speed_matches_spec :
    (∀ speed : Int,
      set_motor_speed speed =
        [0x08, 0x00, 0x81, MOTOR_PORT, 0x01, 0x51, 0x00, specMotorByte speed]) ∧
    set_motor_speed (-1) = [0x08, 0x00, 0x81, 0x32, 0x01, 0x51, 0x00, 0xFF] ∧
    set_motor_speed 100 = [0x08, 0x00, 0x81, 0x32, 0x01, 0x51, 0x00, 0x64] ∧
    set_motor_speed 150 = set_motor_speed 100 ∧
    set_motor_speed (-150) = set_motor_speed (-100) := by
  refine ⟨?_, by decide, by decide, by decide, by decide⟩
  intro speed
  have hlo : -100 ≤ clampSpeed speed := le_max_left _ _
  have hhi : clampSpeed speed ≤ 100 := max_le (by norm_num) (min_le_left _ _)
  simp only [set_motor_speed, specMotorByte]
  refine congrArg (fun b => [0x08, 0x00, 0x81, MOTOR_PORT, 0x01, 0x51, 0x00, b]) ?_
  split_ifs with h
  · exact nat_and_255_eq _ (by omega)
  · exact nat_and_255_eq _ (by omega)

/-- Claim C2: every buffer shorter than 3 bytes is rejected as truncated: the
handler produces no message fields from it and performs no out-of-bounds
read (the result is `ok truncated`, never an index error). -/
theorem decode_short_truncated :
    ∀ raw : List Nat, raw.length < 3 →
      decode raw = Except.ok HandlerResult.truncated := by
  intro raw h
  match raw with
  | [] => rfl
  | [_] => rfl
  | [_, _] => rfl
  | _ :: _ :: _ :: _ =>
    simp only [List.length_cons] at h
    omega

/-- Claim C2 witness: the 2-byte buffer `[0x05, 0x00]`. -/
theorem decode_short_truncated_case :
    ([0x05, 0x00] : List Nat).length < 3 ∧
    decode [0x05, 0x00] = Except.ok HandlerResult.truncated :=
  ⟨by decide, decode_short_truncated [0x05, 0x00] (by decide)⟩

/-- Claim C3: for payloads with `len + 2 ≤ 255`, both controllers'
`send_command` prepend exactly the two header bytes `len + 2` and `0x00` and
leave the payload unchanged; the encoding itself is a pure function. -/
theorem send_command_prefixes_header :
    ∀ payload : List Nat, payload.length + 2 ≤ 255 →
      send_command_frame payload =
        some ((payload.length + 2) :: 0x00 :: payload) ∧
      Duplo2.send_command_frame payload = send_command_frame payload := by
  intro p h
  simp [send_command_frame, Duplo2.send_command_frame, h]

/-- Claim C3 witness: the motor command payload of `set_motor_simple`. -/
theorem send_command_prefixes_header_case :
    ([0x81, 0x32, 0x01, 0x51, 0x00, 0x64] : List Nat).length + 2 ≤ 255 ∧
    send_command_frame [0x81, 0x32, 0x01, 0x51, 0x00, 0x64] =
      some ((([0x81, 0x32, 0x01, 0x51, 0x00, 0x64] : List Nat).length + 2) ::
        0x00 :: [0x81, 0x32, 0x01, 0x51, 0x00, 0x64]) ∧
    Duplo2.send_command_frame [0x81, 0x32, 0x01, 0x51, 0x00, 0x64] =
      send_command_frame [0x81, 0x32, 0x01, 0x51, 0x00, 0x64] :=
  ⟨by decide, (send_command_prefixes_header _ (by decide)).1,
    (send_command_prefixes_header _ (by decide)).2⟩

/-- Claim C4 (code bug): the canonical 5-byte error frame 05 00 05 01 06 is
NOT parsed by `notification_handler` — its 0x05 branch demands
`len(data) >= 6`, so the frame is silently ignored and no GenericError
fields are produced — even though `evaluate_response` in the same file
recognises this very frame as the Invalid-use error (command type 0x01,
error code 0x06). -/
theorem generic_error_frame_ignored :
    decode [0x05, 0x00, 0x05, 0x01, 0x06] = Except.ok HandlerResult.ignored ∧
    evaluate_response (some [0x05, 0x00, 0x05, 0x01, 0x06]) =
      Except.ok EvalResult.errInvalidUse :=
  ⟨rfl, rfl⟩

/-- Claim C5: decoding 06 00 04 32 01 29 00 yields AttachedIO with port 0x32,
event Attached (0x01) and little-endian device type 0x0029, and processing it
from the fresh controller state records port 0x32 in the motor-port entry. -/
theorem attach_frame_sets_motor_port :
    decode [0x06, 0x00, 0x04, 0x32, 0x01, 0x29, 0x00] =
      Except.ok (HandlerResult.attachedIo 0x32 0x01 (some 0x29)) ∧
    notification_handler initState [0x06, 0x00, 0x04, 0x32, 0x01, 0x29, 0x00] =
      Except.ok (HandlerResult.attachedIo 0x32 0x01 (some 0x29),
        { motor_port := some 0x32, speaker_port := none, led_port := none,
          last_notification := some [0x06, 0x00, 0x04, 0x32, 0x01, 0x29, 0x00] }) :=
  ⟨rfl, rfl⟩

/-- Claim C6 counterexample: after attaching device type 0x0029 on port 0x32,
processing the Detached frame 05 00 04 32 00 leaves the motor-port entry at
port 0x32 — the recorded attachment does NOT become absent. -/
theorem detach_not_cleared_cex :
    (notification_handler initState
        [0x06, 0x00, 0x04, 0x32, 0x01, 0x29, 0x00]).bind
      (fun r => notification_handler r.2 [0x05, 0x00, 0x04, 0x32, 0x00]) =
      Except.ok (HandlerResult.attachedIo 0x32 0x00 none,
        { motor_port := some 0x32, speaker_port := none, led_port := none,
          last_notification := some [0x05, 0x00, 0x04, 0x32, 0x00] }) ∧
    some 0x32 ≠ (none : Option Nat) :=
  ⟨rfl, by decide⟩

/-- Claim C6 (amended): processing an AttachedIO frame with event = Detached
leaves the port-tracking state unchanged (only `last_notification` is
updated); after attach(0x32, 0x0029), detach(0x32), then a further
attach(0x32, 0x005B), the motor-port entry still holds 0x32 and the LED
entry now also holds 0x32. -/
theorem detach_leaves_tracking_unchanged :
    (∀ (s : CtrlState) (port : Nat),
      notification_handler s [0x05, 0x00, 0x04, port, 0x00] =
        Except.ok (HandlerResult.attachedIo port 0x00 none,
          { s with
            last_notification := some [0x05, 0x00, 0x04, port, 0x00] })) ∧
    ((notification_handler initState
        [0x06, 0x00, 0x04, 0x32, 0x01, 0x29, 0x00]).bind
      (fun r1 =>
        (notification_handler r1.2 [0x05, 0x00, 0x04, 0x32, 0x00]).bind
          (fun r2 =>
            notification_handler r2.2
              [0x06, 0x00, 0x04, 0x32, 0x01, 0x5B, 0x00]))) =
      Except.ok (HandlerResult.attachedIo 0x32 0x01 (some 0x5B),
        { motor_port := some 0x32, speaker_port := none,
          led_port := some 0x32,
          last_notification :=
            some [0x06, 0x00, 0x04, 0x32, 0x01, 0x5B, 0x00] }) := by
  refine ⟨?_, rfl⟩
  intro s port
  rfl

/-- Claim C7 (code bug): the 0x04 branch of `notification_handler` reads
`data[3]` and `data[4]` with no length guard, so the 3-byte frame 03 00 04
raises IndexError: the decoder is not a total function on all byte inputs
and a malformed inbound frame of a known type can crash the handler instead
of degrading to Unrecognized. -/
theorem attach_frame_short_index_error :
    decode [0x03, 0x00, 0x04] = Except.error PyErr.indexError :=
  rfl

/-- Claim C8: `play_sound` clamps the sound id to 1..10 and builds the
Hub-Action frame `[0x04, 0x00, 0x02, 0x01, id]`; its message-type byte
(index 2) is 0x02, the Hub-Action type, not the port-output opcode 0x81. -/
theorem play_sound_hub_action_frame :
    ∀ sound_id : Int,
      play_sound sound_id =
        [0x04, 0x00, 0x02, 0x01, (clampSound sound_id).toNat] ∧
      1 ≤ clampSound sound_id ∧ clampSound sound_id ≤ 10 ∧
      (play_sound sound_id).get? 2 = some 0x02 := by
  intro sound_id
  exact ⟨rfl, le_max_left _ _, max_le (by norm_num) (min_le_left _ _), rfl⟩

end DuploTrain

namespace Duplo2

/-- Claim C9: when every scan/connect attempt fails, `handle_reconnection`
performs exactly `maxAttempts` scan attempts and leaves the controller
stopped (`running = false`, `reconnecting = false`, still disconnected), and
the `run_interactive` loop then halts at once: however much further it is
run, it performs no scan or connect attempt ever again. -/
theorem reconnect_exhausted_terminal :
    ∀ (maxAttempts : Nat) (quit : Nat → Bool) (s : SupState) (fuel i : Nat),
      s.connected = false →
      (handle_reconnection maxAttempts scan_always_fails s).1.running = false ∧
      (handle_reconnection maxAttempts scan_always_fails s).1.reconnecting
        = false ∧
      (handle_reconnection maxAttempts scan_always_fails s).1.connected
        = false ∧
      (handle_reconnection maxAttempts scan_always_fails s).2 = maxAttempts ∧
      run_interactive_scans maxAttempts scan_always_fails quit fuel i
        (handle_reconnection maxAttempts scan_always_fails s).1 = 0 := by
  intro maxA quit s fuel i hconn
  have hr : handle_reconnection maxA scan_always_fails s =
      ({ running := false, connected := s.connected, reconnecting := false },
        maxA) :=
    handle_reconnection_go_all_fail scan_always_fails (fun _ => rfl) maxA 0
      { s with reconnecting := true }
  rw [hr]
  exact ⟨rfl, rfl, hconn, rfl,
    run_interactive_scans_stopped _ _ _ _ _ _ rfl⟩

/-- Claim C9 witness: maxAttempts = 3 from the running, disconnected state. -/
theorem reconnect_exhausted_terminal_case :
    (SupState.mk true false false).connected = false ∧
    ((handle_reconnection 3 scan_always_fails
        (SupState.mk true false false)).1.running = false ∧
     (handle_reconnection 3 scan_always_fails
        (SupState.mk true false false)).1.reconnecting = false ∧
     (handle_reconnection 3 scan_always_fails
        (SupState.mk true false false)).1.connected = false ∧
     (handle_reconnection 3 scan_always_fails
        (SupState.mk true false false)).2 = 3 ∧
     run_interactive_scans 3 scan_always_fails no_quit_key 10 0
       (handle_reconnection 3 scan_always_fails
         (SupState.mk true false false)).1 = 0) :=
  ⟨rfl, reconnect_exhausted_terminal 3 no_quit_key
    (SupState.mk true false false) 10 0 rfl⟩

/-- Claim C10: under the default 0..23 color range, the `cycle_color` search
loop terminates (within 24 iterations) from every starting color in 0..23,
and the resulting color is inside the range and never 0, 11 or 16. -/
theorem cycle_color_terminates_in_range :
    ∀ c : Nat, c < 24 →
      (cycle_color c).isSome = true ∧
      (cycle_color c).getD 0 < 24 ∧
      (cycle_color c).getD 0 ∉ skip_colors := by
  decide

/-- Claim C10 witness: starting color 5. -/
theorem cycle_color_terminates_in_range_case :
    (5 : Nat) < 24 ∧
    ((cycle_color 5).isSome = true ∧
     (cycle_color 5).getD 0 < 24 ∧
     (cycle_color 5).getD 0 ∉ skip_colors) :=
  ⟨by decide, cycle_color_terminates_in_range 5 (by decide)⟩

end Duplo2
